import Mathlib

/-!
Verification of the health-status prediction engine of the Bracelet-connecte
backend (`app/services/health_prediction_service.py` and the metric store
queries in `app/repositories/metric_repository.py`).

Machine reals are embedded as `ℚ` (all numeric operations involved are
comparisons, sums and one division, which agree with the source's
floating-point behaviour on the decimal literals at stake), timestamps as
`ℤ` seconds, nullable values as `Option`, and the fallible store call as
`Except`.
-/

namespace Bracelet

/-- Metric kinds, from `app/models/enums.py` (`MetricType`). -/
inductive MetricType
  | SPO2
  | HEART_RATE
  | SKIN_TEMPERATURE
  | AMBIENT_TEMPERATURE
deriving DecidableEq, Repr, BEq

/-- A stored metric row, from `app/models/metric.py` (`Metric`): the columns the
prediction path reads (`metric_type`, nullable `value`, `timestamp`, `user_id`,
soft-delete marker `deleted_at`). -/
structure Metric where
  metric_type : MetricType
  value : Option ℚ
  timestamp : ℤ
  user_id : String
  deleted_at : Option ℤ
deriving DecidableEq, Repr, BEq

/-- A user row, from `app/models/user.py`: the columns `_validate_user_exists`
reads (`id`, soft-delete marker `deleted_at`). -/
structure User where
  id : String
  deleted_at : Option ℤ
deriving DecidableEq, Repr, BEq

/-- The relational store as seen by the prediction path: the `users` and
`metrics` tables. -/
structure DB where
  users : List User
  metrics : List Metric
deriving DecidableEq, Repr, BEq

/-- The user-existence test of `MetricRepository._validate_user_exists`
(`app/repositories/metric_repository.py`): the query
`User.id == user_id, User.deleted_at.is_(None)` finds a row.  The source
raises `UserNotFoundException` exactly when this is `false`. -/
def _validate_user_exists (db : DB) (user_id : String) : Bool :=
  db.users.any (fun u => u.id == user_id && u.deleted_at.isNone)

/-- `MetricRepository.get_user_metrics`: filter by `user_id` and
`deleted_at IS NULL`, then by the optional `metric_type`, `start_date`
(`timestamp >= start_date`) and `end_date` (`timestamp <= end_date`) filters,
order by `timestamp` descending, then apply `offset(skip).limit(limit)`.
Note the source performs no user-existence validation on this query path. -/
def get_user_metrics (db : DB) (user_id : String) (metric_type : Option MetricType)
    (start_date end_date : Option ℤ) (skip limit : ℕ) : List Metric :=
  let q0 := db.metrics.filter (fun m => m.user_id == user_id && m.deleted_at.isNone)
  let q1 := match metric_type with
    | none => q0
    | some t => q0.filter (fun m => m.metric_type == t)
  let q2 := match start_date with
    | none => q1
    | some s => q1.filter (fun m => decide (s ≤ m.timestamp))
  let q3 := match end_date with
    | none => q2
    | some e => q2.filter (fun m => decide (m.timestamp ≤ e))
  let sorted := List.insertionSort (fun a b => b.timestamp ≤ a.timestamp) q3
  (sorted.drop skip).take limit

/-- An error raised by the store during a metric lookup (any `Exception` in the
source: operational DB failure, timeout, ...). -/
inductive StoreError
  | timeout
  | failure (msg : String)
deriving DecidableEq, Repr

/-- The health prediction request schema
(`app/schemas/health_prediction.py`, `HealthPredictionRequest`). -/
structure HealthPredictionRequest where
  user_id : String
  spo2 : Option ℚ
  heart_rate : Option ℚ
  body_temperature : Option ℚ
  include_metrics : Bool
  prediction_horizon_hours : Option ℤ
deriving DecidableEq, Repr

/-- Risk levels (`HealthRiskLevel` in `app/schemas/health_prediction.py`). -/
inductive HealthRiskLevel
  | LOW
  | MEDIUM
  | HIGH
deriving DecidableEq, Repr

/-- Per-metric summary (`MetricAverage` in `app/schemas/health_prediction.py`). -/
structure MetricAverage where
  metric_type : String
  average_value : ℚ
  unit : String
  data_points : ℕ
  is_healthy : Bool
  health_score : ℚ
deriving DecidableEq, Repr

/-- The prediction response schema
(`HealthPredictionResponse` in `app/schemas/health_prediction.py`). -/
structure HealthPredictionResponse where
  user_id : String
  prediction_timestamp : ℤ
  prediction_result : ℕ
  health_risk_level : HealthRiskLevel
  confidence_score : ℚ
  metric_averages : List MetricAverage
  risk_factors : List String
  recommendations : List String
  raw_metrics_summary : Option Unit
  model_version : String
  prediction_horizon_hours : ℤ
deriving DecidableEq, Repr

/-! The `health_thresholds` dictionary of `HealthPredictionService.__init__`. -/

def spo2_normal_min : ℚ := 95
def spo2_concerning_min : ℚ := 90
def heart_rate_normal_min : ℚ := 60
def heart_rate_normal_max : ℚ := 100
def heart_rate_concerning_min : ℚ := 40
def heart_rate_concerning_max : ℚ := 120
def temp_normal_min : ℚ := 36.1
def temp_normal_max : ℚ := 37.2
def temp_concerning_min : ℚ := 35
def temp_concerning_max : ℚ := 38

/-- `HealthPredictionService._get_metric_from_db`, factored over the outcome of
the store call `metric_repo.get_user_metrics(...)` (an `Except` because the
source wraps the call in `try/except Exception: return None`): keep the rows
whose `value` is non-null; if any remain return the arithmetic mean of their
values, else `None`. -/
def _get_metric_from_db (lookup : Except StoreError (List Metric)) : Option ℚ :=
  match lookup with
  | .error _ => none
  | .ok metrics =>
      let metrics_with_values := metrics.filter (fun m => m.value.isSome)
      if metrics_with_values.isEmpty then none
      else
        let values := metrics_with_values.filterMap (fun m => m.value)
        some (values.sum / (values.length : ℚ))

/-- `HealthPredictionService._get_health_parameters`: each vital is the
request's explicit value if present, else the last-24h store average via
`_get_metric_from_db` (SpO2, heart rate, skin temperature in that order). -/
def _get_health_parameters (request : HealthPredictionRequest)
    (lookup : MetricType → Except StoreError (List Metric)) :
    Option ℚ × Option ℚ × Option ℚ :=
  let spo2 := match request.spo2 with
    | some v => some v
    | none => _get_metric_from_db (lookup MetricType.SPO2)
  let heart_rate := match request.heart_rate with
    | some v => some v
    | none => _get_metric_from_db (lookup MetricType.HEART_RATE)
  let body_temperature := match request.body_temperature with
    | some v => some v
    | none => _get_metric_from_db (lookup MetricType.SKIN_TEMPERATURE)
  (spo2, heart_rate, body_temperature)

/-- `HealthPredictionService._predict_health_status`: accumulate
`critical_count` and `concerning_count` over the three optional vitals with the
source's comparison structure, then map the counts to 0/1/2. -/
def _predict_health_status (spo2 heart_rate body_temperature : Option ℚ) : ℕ :=
  let counts0 : ℕ × ℕ := (0, 0)
  let counts1 := match spo2 with
    | none => counts0
    | some x =>
        if x < spo2_concerning_min then (counts0.1 + 1, counts0.2)
        else if x < spo2_normal_min then (counts0.1, counts0.2 + 1)
        else counts0
  let counts2 := match heart_rate with
    | none => counts1
    | some x =>
        if x < heart_rate_concerning_min ∨ heart_rate_concerning_max < x then
          (counts1.1 + 1, counts1.2)
        else if x < heart_rate_normal_min ∨ heart_rate_normal_max < x then
          (counts1.1, counts1.2 + 1)
        else counts1
  let counts3 := match body_temperature with
    | none => counts2
    | some x =>
        if x < temp_concerning_min ∨ temp_concerning_max < x then
          (counts2.1 + 1, counts2.2)
        else if x < temp_normal_min ∨ temp_normal_max < x then
          (counts2.1, counts2.2 + 1)
        else counts2
  if counts3.1 > 0 then 2
  else if counts3.2 > 0 then 1
  else 0

/-- `HealthPredictionService._map_prediction_to_risk_level`. -/
def _map_prediction_to_risk_level (prediction_result : ℕ) : HealthRiskLevel :=
  if prediction_result = 0 then HealthRiskLevel.LOW
  else if prediction_result = 1 then HealthRiskLevel.MEDIUM
  else HealthRiskLevel.HIGH

/-- `HealthPredictionService._generate_metric_averages`: one summary per
non-null vital, in the order SpO2, heart rate, body temperature, with the
source's `is_healthy` comparisons and 1.0/0.5/0.0 `health_score`. -/
def _generate_metric_averages (spo2 heart_rate body_temperature : Option ℚ) :
    List MetricAverage :=
  let l0 : List MetricAverage := []
  let l1 := match spo2 with
    | none => l0
    | some x =>
        let healthy : Bool := decide (spo2_normal_min ≤ x)
        let score : ℚ := if healthy then 1.0
          else if decide (spo2_concerning_min ≤ x) then 0.5 else 0.0
        l0 ++ [{ metric_type := "spo2", average_value := x, unit := "%",
                 data_points := 1, is_healthy := healthy, health_score := score }]
  let l2 := match heart_rate with
    | none => l1
    | some x =>
        let healthy : Bool :=
          decide (heart_rate_normal_min ≤ x ∧ x ≤ heart_rate_normal_max)
        let score : ℚ := if healthy then 1.0
          else if decide (heart_rate_concerning_min ≤ x ∧ x ≤ heart_rate_concerning_max)
            then 0.5 else 0.0
        l1 ++ [{ metric_type := "heart_rate", average_value := x, unit := "bpm",
                 data_points := 1, is_healthy := healthy, health_score := score }]
  let l3 := match body_temperature with
    | none => l2
    | some x =>
        let healthy : Bool :=
          decide (temp_normal_min ≤ x ∧ x ≤ temp_normal_max)
        let score : ℚ := if healthy then 1.0
          else if decide (temp_concerning_min ≤ x ∧ x ≤ temp_concerning_max)
            then 0.5 else 0.0
        l2 ++ [{ metric_type := "body_temperature", average_value := x, unit := "°C",
                 data_points := 1, is_healthy := healthy, health_score := score }]
  l3

/-- `HealthPredictionService._generate_risk_analysis`: on prediction 0 a single
affirmation and no risk factors; otherwise, per out-of-normal vital in the
order SpO2, heart rate, body temperature, one risk-factor string and one
recommendation picked by the source's nested comparisons. -/
def _generate_risk_analysis (prediction_result : ℕ)
    (spo2 heart_rate body_temperature : Option ℚ) : List String × List String :=
  if prediction_result = 0 then
    ([], ["All health parameters are within normal ranges. Continue monitoring."])
  else
    let s0 : List String × List String := ([], [])
    let s1 := match spo2 with
      | none => s0
      | some x =>
          if x < spo2_normal_min then
            (s0.1 ++ ["Low SpO2 level (" ++ toString x ++ "%)"],
             s0.2 ++ [if x < spo2_concerning_min then
                        "Seek immediate medical attention for low oxygen levels"
                      else "Monitor oxygen levels and rest"])
          else s0
    let s2 := match heart_rate with
      | none => s1
      | some x =>
          if x < heart_rate_normal_min then
            (s1.1 ++ ["Low heart rate (" ++ toString x ++ " bpm)"],
             s1.2 ++ [if x < heart_rate_concerning_min then
                        "Seek immediate medical attention for bradycardia"
                      else "Monitor heart rate and avoid strenuous activity"])
          else if heart_rate_normal_max < x then
            (s1.1 ++ ["High heart rate (" ++ toString x ++ " bpm)"],
             s1.2 ++ [if heart_rate_concerning_max < x then
                        "Seek immediate medical attention for tachycardia"
                      else "Rest and monitor heart rate"])
          else s1
    let s3 := match body_temperature with
      | none => s2
      | some x =>
          if x < temp_normal_min then
            (s2.1 ++ ["Low body temperature (" ++ toString x ++ "°C)"],
             s2.2 ++ [if x < temp_concerning_min then
                        "Seek immediate medical attention for hypothermia"
                      else "Warm up and monitor temperature"])
          else if temp_normal_max < x then
            (s2.1 ++ ["High body temperature (" ++ toString x ++ "°C)"],
             s2.2 ++ [if temp_concerning_max < x then
                        "Seek immediate medical attention for fever"
                      else "Rest, hydrate, and monitor temperature"])
          else s2
    s3

/-- `HealthPredictionService.predict_health_status`, the orchestrator: resolve
the three vitals, predict, map to a risk level, count the available parameters
for the confidence score, and assemble the response.  Nothing on this path
raises in the source (per-vital store failures are absorbed by
`_get_metric_from_db`), so the embedding is total. -/
def predict_health_status (now : ℤ) (request : HealthPredictionRequest)
    (lookup : MetricType → Except StoreError (List Metric)) :
    HealthPredictionResponse :=
  let params := _get_health_parameters request lookup
  let spo2 := params.1
  let heart_rate := params.2.1
  let body_temperature := params.2.2
  let prediction_result := _predict_health_status spo2 heart_rate body_temperature
  let health_risk_level := _map_prediction_to_risk_level prediction_result
  let available_params :=
    List.countP (fun p => p.isSome) [spo2, heart_rate, body_temperature]
  let confidence_score : ℚ := (available_params : ℚ) / 3.0
  let metric_averages := _generate_metric_averages spo2 heart_rate body_temperature
  let ra := _generate_risk_analysis prediction_result spo2 heart_rate body_temperature
  { user_id := request.user_id
    prediction_timestamp := now
    prediction_result := prediction_result
    health_risk_level := health_risk_level
    confidence_score := confidence_score
    metric_averages := metric_averages
    risk_factors := ra.1
    recommendations := ra.2
    raw_metrics_summary := none
    model_version := "v3.0.0-multi-parameter"
    prediction_horizon_hours := request.prediction_horizon_hours.getD 24 }

/-- The store lookup `_get_metric_from_db` performs when it is not cut short by
an exception: `get_user_metrics(user_id, metric_type, now − 24h, now)` with the
repository's default `skip=0, limit=100`. -/
def db_lookup (db : DB) (now : ℤ) (user_id : String) :
    MetricType → Except StoreError (List Metric) :=
  fun t => Except.ok (get_user_metrics db user_id (some t) (some (now - 86400)) (some now) 0 100)

/-- `predict_health_status` run against a concrete store state with no
transient failures. -/
def predict_health_status_db (db : DB) (now : ℤ)
    (request : HealthPredictionRequest) : HealthPredictionResponse :=
  predict_health_status now request (db_lookup db now request.user_id)

/-!
Spec-side vocabulary: the per-vital three-way band of §4.2 of the design
specification.  Each band function is the classification performed inline by
`_predict_health_status` (critical test first, then concerning, else normal),
with the thresholds of `HealthPredictionService.__init__`.
-/

/-- The three-way classification band of a vital. -/
inductive Band
  | NORMAL
  | CONCERNING
  | CRITICAL
deriving DecidableEq, Repr

/-- SpO2 band, as tested inline by `_predict_health_status`. -/
def spo2Band (x : ℚ) : Band :=
  if x < spo2_concerning_min then Band.CRITICAL
  else if x < spo2_normal_min then Band.CONCERNING
  else Band.NORMAL

/-- Heart-rate band, as tested inline by `_predict_health_status`. -/
def heartRateBand (x : ℚ) : Band :=
  if x < heart_rate_concerning_min ∨ heart_rate_concerning_max < x then Band.CRITICAL
  else if x < heart_rate_normal_min ∨ heart_rate_normal_max < x then Band.CONCERNING
  else Band.NORMAL

/-- Body-temperature band, as tested inline by `_predict_health_status`. -/
def tempBand (x : ℚ) : Band :=
  if x < temp_concerning_min ∨ temp_concerning_max < x then Band.CRITICAL
  else if x < temp_normal_min ∨ temp_normal_max < x then Band.CONCERNING
  else Band.NORMAL

/-- The bands of the vitals that are actually present (a missing vital
contributes no band). -/
def presentBands (spo2 heart_rate body_temperature : Option ℚ) : List Band :=
  [spo2.map spo2Band, heart_rate.map heartRateBand,
   body_temperature.map tempBand].filterMap id

/-- Number of non-missing vitals classified CRITICAL. -/
def criticalCount (spo2 heart_rate body_temperature : Option ℚ) : ℕ :=
  (presentBands spo2 heart_rate body_temperature).count Band.CRITICAL

/-- Number of non-missing vitals classified CONCERNING. -/
def concerningCount (spo2 heart_rate body_temperature : Option ℚ) : ℕ :=
  (presentBands spo2 heart_rate body_temperature).count Band.CONCERNING

/-- The 0/1/2 severity a band contributes to the aggregate prediction. -/
def bandSeverity : Band → ℕ
  | Band.NORMAL => 0
  | Band.CONCERNING => 1
  | Band.CRITICAL => 2

/-- The per-metric health score of §4.6 step 5. -/
def bandScore : Band → ℚ
  | Band.NORMAL => 1
  | Band.CONCERNING => 1/2
  | Band.CRITICAL => 0

/-- Trichotomy of the SpO2 tests of `_predict_health_status`, tagged with the
resulting band. -/
theorem spo2_band_cases (x : ℚ) :
    (x < spo2_concerning_min ∧ spo2Band x = Band.CRITICAL) ∨
    (¬ x < spo2_concerning_min ∧ x < spo2_normal_min ∧ spo2Band x = Band.CONCERNING) ∨
    (¬ x < spo2_concerning_min ∧ ¬ x < spo2_normal_min ∧ spo2Band x = Band.NORMAL) := by
  by_cases h1 : x < spo2_concerning_min
  · exact Or.inl ⟨h1, by simp [spo2Band, h1]⟩
  · by_cases h2 : x < spo2_normal_min
    · exact Or.inr (Or.inl ⟨h1, h2, by simp [spo2Band, h1, h2]⟩)
    · exact Or.inr (Or.inr ⟨h1, h2, by simp [spo2Band, h1, h2]⟩)

/-- Trichotomy of the heart-rate tests of `_predict_health_status`, tagged with
the resulting band. -/
theorem heart_rate_band_cases (x : ℚ) :
    ((x < heart_rate_concerning_min ∨ heart_rate_concerning_max < x) ∧
       heartRateBand x = Band.CRITICAL) ∨
    (¬ (x < heart_rate_concerning_min ∨ heart_rate_concerning_max < x) ∧
       (x < heart_rate_normal_min ∨ heart_rate_normal_max < x) ∧
       heartRateBand x = Band.CONCERNING) ∨
    (¬ (x < heart_rate_concerning_min ∨ heart_rate_concerning_max < x) ∧
       ¬ (x < heart_rate_normal_min ∨ heart_rate_normal_max < x) ∧
       heartRateBand x = Band.NORMAL) := by
  by_cases h1 : x < heart_rate_concerning_min ∨ heart_rate_concerning_max < x
  · exact Or.inl ⟨h1, by simp only [heartRateBand, if_pos h1]⟩
  · by_cases h2 : x < heart_rate_normal_min ∨ heart_rate_normal_max < x
    · exact Or.inr (Or.inl ⟨h1, h2, by simp only [heartRateBand, if_neg h1, if_pos h2]⟩)
    · exact Or.inr (Or.inr ⟨h1, h2, by simp only [heartRateBand, if_neg h1, if_neg h2]⟩)

/-- Trichotomy of the body-temperature tests of `_predict_health_status`, tagged
with the resulting band. -/
theorem temp_band_cases (x : ℚ) :
    ((x < temp_concerning_min ∨ temp_concerning_max < x) ∧
       tempBand x = Band.CRITICAL) ∨
    (¬ (x < temp_concerning_min ∨ temp_concerning_max < x) ∧
       (x < temp_normal_min ∨ temp_normal_max < x) ∧
       tempBand x = Band.CONCERNING) ∨
    (¬ (x < temp_concerning_min ∨ temp_concerning_max < x) ∧
       ¬ (x < temp_normal_min ∨ temp_normal_max < x) ∧
       tempBand x = Band.NORMAL) := by
  by_cases h1 : x < temp_concerning_min ∨ temp_concerning_max < x
  · exact Or.inl ⟨h1, by simp only [tempBand, if_pos h1]⟩
  · by_cases h2 : x < temp_normal_min ∨ temp_normal_max < x
    · exact Or.inr (Or.inl ⟨h1, h2, by simp only [tempBand, if_neg h1, if_pos h2]⟩)
    · exact Or.inr (Or.inr ⟨h1, h2, by simp only [tempBand, if_neg h1, if_neg h2]⟩)

/-- Proof helper: the SpO2 counter update of `_predict_health_status`
(definitionally equal to the corresponding `let` step). -/
def spo2Step (x : ℚ) (c : ℕ × ℕ) : ℕ × ℕ :=
  if x < spo2_concerning_min then (c.1 + 1, c.2)
  else if x < spo2_normal_min then (c.1, c.2 + 1)
  else c

/-- Proof helper: the heart-rate counter update of `_predict_health_status`. -/
def hrStep (x : ℚ) (c : ℕ × ℕ) : ℕ × ℕ :=
  if x < heart_rate_concerning_min ∨ heart_rate_concerning_max < x then (c.1 + 1, c.2)
  else if x < heart_rate_normal_min ∨ heart_rate_normal_max < x then (c.1, c.2 + 1)
  else c

/-- Proof helper: the body-temperature counter update of
`_predict_health_status`. -/
def tempStep (x : ℚ) (c : ℕ × ℕ) : ℕ × ℕ :=
  if x < temp_concerning_min ∨ temp_concerning_max < x then (c.1 + 1, c.2)
  else if x < temp_normal_min ∨ temp_normal_max < x then (c.1, c.2 + 1)
  else c

/-- Proof helper: the final count-to-result mapping of
`_predict_health_status`. -/
def countsFinish (c : ℕ × ℕ) : ℕ :=
  if c.1 > 0 then 2 else if c.2 > 0 then 1 else 0

theorem countsFinish_mk (a b : ℕ) :
    countsFinish (a, b) = if 0 < a then 2 else if 0 < b then 1 else 0 := rfl

/-- The SpO2 counter update increments by the indicator of the band. -/
theorem spo2Step_eq (x : ℚ) (c : ℕ × ℕ) :
    spo2Step x c = (c.1 + (if spo2Band x = Band.CRITICAL then 1 else 0),
                    c.2 + (if spo2Band x = Band.CONCERNING then 1 else 0)) := by
  unfold spo2Step spo2Band
  split_ifs <;> simp_all

/-- The heart-rate counter update increments by the indicator of the band. -/
theorem hrStep_eq (x : ℚ) (c : ℕ × ℕ) :
    hrStep x c = (c.1 + (if heartRateBand x = Band.CRITICAL then 1 else 0),
                  c.2 + (if heartRateBand x = Band.CONCERNING then 1 else 0)) := by
  unfold hrStep heartRateBand
  split_ifs <;> simp_all

/-- The body-temperature counter update increments by the indicator of the
band. -/
theorem tempStep_eq (x : ℚ) (c : ℕ × ℕ) :
    tempStep x c = (c.1 + (if tempBand x = Band.CRITICAL then 1 else 0),
                    c.2 + (if tempBand x = Band.CONCERNING then 1 else 0)) := by
  unfold tempStep tempBand
  split_ifs <;> simp_all

/-- Bridge lemma: the imperative counter accumulation of
`_predict_health_status` computes exactly the band counts of the present
vitals, and the result is the count-based case split of §4.3. -/
theorem predict_eq_counts (s h t : Option ℚ) :
    _predict_health_status s h t =
      if 0 < criticalCount s h t then 2
      else if 0 < concerningCount s h t then 1
      else 0 := by
  rcases s with _ | x <;> rcases h with _ | y <;> rcases t with _ | z
  · decide
  · have e : _predict_health_status none none (some z)
        = countsFinish (tempStep z (0, 0)) := rfl
    rw [e, tempStep_eq, countsFinish_mk]
    simp only [criticalCount, concerningCount, presentBands, Option.map_some',
      Option.map_none', List.filterMap_cons, List.filterMap_nil, id_eq]
    rcases temp_band_cases z with ⟨h5, hb3⟩ | ⟨h5, h6, hb3⟩ | ⟨h5, h6, hb3⟩ <;>
      simp only [hb3] <;> decide
  · have e : _predict_health_status none (some y) none
        = countsFinish (hrStep y (0, 0)) := rfl
    rw [e, hrStep_eq, countsFinish_mk]
    simp only [criticalCount, concerningCount, presentBands, Option.map_some',
      Option.map_none', List.filterMap_cons, List.filterMap_nil, id_eq]
    rcases heart_rate_band_cases y with ⟨h3, hb2⟩ | ⟨h3, h4, hb2⟩ | ⟨h3, h4, hb2⟩ <;>
      simp only [hb2] <;> decide
  · have e : _predict_health_status none (some y) (some z)
        = countsFinish (tempStep z (hrStep y (0, 0))) := rfl
    rw [e, hrStep_eq, tempStep_eq, countsFinish_mk]
    simp only [criticalCount, concerningCount, presentBands, Option.map_some',
      Option.map_none', List.filterMap_cons, List.filterMap_nil, id_eq]
    rcases heart_rate_band_cases y with ⟨h3, hb2⟩ | ⟨h3, h4, hb2⟩ | ⟨h3, h4, hb2⟩ <;>
      rcases temp_band_cases z with ⟨h5, hb3⟩ | ⟨h5, h6, hb3⟩ | ⟨h5, h6, hb3⟩ <;>
      simp only [hb2, hb3] <;> decide
  · have e : _predict_health_status (some x) none none
        = countsFinish (spo2Step x (0, 0)) := rfl
    rw [e, spo2Step_eq, countsFinish_mk]
    simp only [criticalCount, concerningCount, presentBands, Option.map_some',
      Option.map_none', List.filterMap_cons, List.filterMap_nil, id_eq]
    rcases spo2_band_cases x with ⟨h1, hb1⟩ | ⟨h1, h2, hb1⟩ | ⟨h1, h2, hb1⟩ <;>
      simp only [hb1] <;> decide
  · have e : _predict_health_status (some x) none (some z)
        = countsFinish (tempStep z (spo2Step x (0, 0))) := rfl
    rw [e, spo2Step_eq, tempStep_eq, countsFinish_mk]
    simp only [criticalCount, concerningCount, presentBands, Option.map_some',
      Option.map_none', List.filterMap_cons, List.filterMap_nil, id_eq]
    rcases spo2_band_cases x with ⟨h1, hb1⟩ | ⟨h1, h2, hb1⟩ | ⟨h1, h2, hb1⟩ <;>
      rcases temp_band_cases z with ⟨h5, hb3⟩ | ⟨h5, h6, hb3⟩ | ⟨h5, h6, hb3⟩ <;>
      simp only [hb1, hb3] <;> decide
  · have e : _predict_health_status (some x) (some y) none
        = countsFinish (hrStep y (spo2Step x (0, 0))) := rfl
    rw [e, spo2Step_eq, hrStep_eq, countsFinish_mk]
    simp only [criticalCount, concerningCount, presentBands, Option.map_some',
      Option.map_none', List.filterMap_cons, List.filterMap_nil, id_eq]
    rcases spo2_band_cases x with ⟨h1, hb1⟩ | ⟨h1, h2, hb1⟩ | ⟨h1, h2, hb1⟩ <;>
      rcases heart_rate_band_cases y with ⟨h3, hb2⟩ | ⟨h3, h4, hb2⟩ | ⟨h3, h4, hb2⟩ <;>
      simp only [hb1, hb2] <;> decide
  · have e : _predict_health_status (some x) (some y) (some z)
        = countsFinish (tempStep z (hrStep y (spo2Step x (0, 0)))) := rfl
    rw [e, spo2Step_eq, hrStep_eq, tempStep_eq, countsFinish_mk]
    simp only [criticalCount, concerningCount, presentBands, Option.map_some',
      Option.map_none', List.filterMap_cons, List.filterMap_nil, id_eq]
    rcases spo2_band_cases x with ⟨h1, hb1⟩ | ⟨h1, h2, hb1⟩ | ⟨h1, h2, hb1⟩ <;>
      rcases heart_rate_band_cases y with ⟨h3, hb2⟩ | ⟨h3, h4, hb2⟩ | ⟨h3, h4, hb2⟩ <;>
      rcases temp_band_cases z with ⟨h5, hb3⟩ | ⟨h5, h6, hb3⟩ | ⟨h5, h6, hb3⟩ <;>
      simp only [hb1, hb2, hb3] <;> decide

/-! Band characterization lemmas (shared proof infrastructure). -/

theorem spo2Band_eq_NORMAL (x : ℚ) : spo2Band x = Band.NORMAL ↔ 95 ≤ x := by
  unfold spo2Band spo2_concerning_min spo2_normal_min
  constructor
  · intro hb
    split_ifs at hb with h1 h2
    linarith [not_lt.mp h2]
  · intro hp
    rw [if_neg (by intro hc; linarith), if_neg (by intro hc; linarith)]

theorem spo2Band_eq_CONCERNING (x : ℚ) :
    spo2Band x = Band.CONCERNING ↔ 90 ≤ x ∧ x < 95 := by
  unfold spo2Band spo2_concerning_min spo2_normal_min
  constructor
  · intro hb
    split_ifs at hb with h1 h2
    exact ⟨not_lt.mp h1, h2⟩
  · rintro ⟨hl, hr⟩
    rw [if_neg (by intro hc; linarith), if_pos hr]

theorem spo2Band_eq_CRITICAL (x : ℚ) : spo2Band x = Band.CRITICAL ↔ x < 90 := by
  unfold spo2Band spo2_concerning_min spo2_normal_min
  constructor
  · intro hb
    split_ifs at hb with h1 h2
    exact h1
  · intro hp
    rw [if_pos hp]

theorem heartRateBand_eq_NORMAL (x : ℚ) :
    heartRateBand x = Band.NORMAL ↔ 60 ≤ x ∧ x ≤ 100 := by
  unfold heartRateBand heart_rate_concerning_min heart_rate_concerning_max
    heart_rate_normal_min heart_rate_normal_max
  constructor
  · intro hb
    split_ifs at hb with h1 h2
    push_neg at h2
    exact ⟨h2.1, h2.2⟩
  · rintro ⟨hl, hr⟩
    rw [if_neg ?_, if_neg ?_]
    · rintro (hc | hc) <;> linarith
    · rintro (hc | hc) <;> linarith

theorem heartRateBand_eq_CONCERNING (x : ℚ) :
    heartRateBand x = Band.CONCERNING ↔ (40 ≤ x ∧ x < 60) ∨ (100 < x ∧ x ≤ 120) := by
  unfold heartRateBand heart_rate_concerning_min heart_rate_concerning_max
    heart_rate_normal_min heart_rate_normal_max
  constructor
  · intro hb
    split_ifs at hb with h1 h2
    push_neg at h1
    rcases h2 with h2 | h2
    · exact Or.inl ⟨h1.1, h2⟩
    · exact Or.inr ⟨h2, h1.2⟩
  · rintro (⟨hl, hr⟩ | ⟨hl, hr⟩)
    · rw [if_neg ?_, if_pos (Or.inl hr)]
      rintro (hc | hc) <;> linarith
    · rw [if_neg ?_, if_pos (Or.inr hl)]
      rintro (hc | hc) <;> linarith

theorem heartRateBand_eq_CRITICAL (x : ℚ) :
    heartRateBand x = Band.CRITICAL ↔ x < 40 ∨ 120 < x := by
  unfold heartRateBand heart_rate_concerning_min heart_rate_concerning_max
    heart_rate_normal_min heart_rate_normal_max
  constructor
  · intro hb
    split_ifs at hb with h1 h2
    exact h1
  · intro hp
    rw [if_pos hp]

theorem tempBand_eq_NORMAL (x : ℚ) :
    tempBand x = Band.NORMAL ↔ 36.1 ≤ x ∧ x ≤ 37.2 := by
  unfold tempBand temp_concerning_min temp_concerning_max
    temp_normal_min temp_normal_max
  constructor
  · intro hb
    split_ifs at hb with h1 h2
    push_neg at h2
    exact ⟨h2.1, h2.2⟩
  · rintro ⟨hl, hr⟩
    rw [if_neg ?_, if_neg ?_]
    · rintro (hc | hc) <;> linarith
    · rintro (hc | hc) <;> linarith

theorem tempBand_eq_CONCERNING (x : ℚ) :
    tempBand x = Band.CONCERNING ↔ (35 ≤ x ∧ x < 36.1) ∨ (37.2 < x ∧ x ≤ 38) := by
  unfold tempBand temp_concerning_min temp_concerning_max
    temp_normal_min temp_normal_max
  constructor
  · intro hb
    split_ifs at hb with h1 h2
    push_neg at h1
    rcases h2 with h2 | h2
    · exact Or.inl ⟨h1.1, h2⟩
    · exact Or.inr ⟨h2, h1.2⟩
  · rintro (⟨hl, hr⟩ | ⟨hl, hr⟩)
    · rw [if_neg ?_, if_pos (Or.inl hr)]
      rintro (hc | hc) <;> linarith
    · rw [if_neg ?_, if_pos (Or.inr hl)]
      rintro (hc | hc) <;> linarith

theorem tempBand_eq_CRITICAL (x : ℚ) :
    tempBand x = Band.CRITICAL ↔ x < 35 ∨ 38 < x := by
  unfold tempBand temp_concerning_min temp_concerning_max
    temp_normal_min temp_normal_max
  constructor
  · intro hb
    split_ifs at hb with h1 h2
    exact h1
  · intro hp
    rw [if_pos hp]

/-- Shared projection lemma: the response fields of `predict_health_status` in
terms of the resolved vitals. -/
theorem predict_projections (now : ℤ) (request : HealthPredictionRequest)
    (lookup : MetricType → Except StoreError (List Metric)) (s h t : Option ℚ)
    (hres : _get_health_parameters request lookup = (s, h, t)) :
    (predict_health_status now request lookup).prediction_result
        = _predict_health_status s h t ∧
    (predict_health_status now request lookup).health_risk_level
        = _map_prediction_to_risk_level (_predict_health_status s h t) ∧
    (predict_health_status now request lookup).confidence_score
        = (List.countP (fun p => p.isSome) [s, h, t] : ℚ) / 3 ∧
    (predict_health_status now request lookup).metric_averages
        = _generate_metric_averages s h t ∧
    (predict_health_status now request lookup).risk_factors
        = (_generate_risk_analysis (_predict_health_status s h t) s h t).1 ∧
    (predict_health_status now request lookup).recommendations
        = (_generate_risk_analysis (_predict_health_status s h t) s h t).2 := by
  refine ⟨?_, ?_, ?_, ?_, ?_, ?_⟩ <;>
    simp only [predict_health_status, hres] <;> norm_num

/-! Concrete fixtures used by the closed witness theorems. -/

/-- A store lookup that always succeeds with no rows. -/
def lookupEmpty : MetricType → Except StoreError (List Metric) :=
  fun _ => Except.ok []

/-- A request carrying explicit override values. -/
def mkRequest (s h t : Option ℚ) : HealthPredictionRequest :=
  { user_id := "u1", spo2 := s, heart_rate := h, body_temperature := t,
    include_metrics := false, prediction_horizon_hours := some 24 }

/-- With the heart rate and temperature in their NORMAL bands, the prediction
equals the severity of the SpO2 band. -/
theorem predict_spo2_varies (x y z : ℚ) (hy : heartRateBand y = Band.NORMAL)
    (hz : tempBand z = Band.NORMAL) :
    _predict_health_status (some x) (some y) (some z) = bandSeverity (spo2Band x) := by
  rw [predict_eq_counts]
  cases hb : spo2Band x <;>
    simp [criticalCount, concerningCount, presentBands, hb, hy, hz, bandSeverity,
      List.count_cons, List.count_nil]

/-- With the SpO2 and temperature in their NORMAL bands, the prediction equals
the severity of the heart-rate band. -/
theorem predict_hr_varies (x y z : ℚ) (hx : spo2Band x = Band.NORMAL)
    (hz : tempBand z = Band.NORMAL) :
    _predict_health_status (some x) (some y) (some z)
      = bandSeverity (heartRateBand y) := by
  rw [predict_eq_counts]
  cases hb : heartRateBand y <;>
    simp [criticalCount, concerningCount, presentBands, hb, hx, hz, bandSeverity,
      List.count_cons, List.count_nil]

/-- With the SpO2 and heart rate in their NORMAL bands, the prediction equals
the severity of the temperature band. -/
theorem predict_temp_varies (x y z : ℚ) (hx : spo2Band x = Band.NORMAL)
    (hy : heartRateBand y = Band.NORMAL) :
    _predict_health_status (some x) (some y) (some z)
      = bandSeverity (tempBand z) := by
  rw [predict_eq_counts]
  cases hb : tempBand z <;>
    simp [criticalCount, concerningCount, presentBands, hb, hx, hy, bandSeverity,
      List.count_cons, List.count_nil]

/-- C1: for every combination of the three optional resolved vitals, if at
least one non-missing vital is in the CRITICAL band the response has
`prediction_result = 2` and `health_risk_level = HIGH`; otherwise if at least
one non-missing vital is CONCERNING it has `prediction_result = 1` and level
MEDIUM; otherwise `prediction_result = 0` and level LOW.  Missing vitals
contribute to neither count (`presentBands` drops them). -/
theorem C1_risk_aggregation (now : ℤ) (request : HealthPredictionRequest)
    (lookup : MetricType → Except StoreError (List Metric)) (s h t : Option ℚ)
    (hres : _get_health_parameters request lookup = (s, h, t)) :
    (0 < criticalCount s h t →
      (predict_health_status now request lookup).prediction_result = 2 ∧
      (predict_health_status now request lookup).health_risk_level = HealthRiskLevel.HIGH) ∧
    (criticalCount s h t = 0 → 0 < concerningCount s h t →
      (predict_health_status now request lookup).prediction_result = 1 ∧
      (predict_health_status now request lookup).health_risk_level = HealthRiskLevel.MEDIUM) ∧
    (criticalCount s h t = 0 → concerningCount s h t = 0 →
      (predict_health_status now request lookup).prediction_result = 0 ∧
      (predict_health_status now request lookup).health_risk_level = HealthRiskLevel.LOW) := by
  obtain ⟨hr1, hr2, -, -, -, -⟩ := predict_projections now request lookup s h t hres
  rw [hr1, hr2, predict_eq_counts]
  refine ⟨?_, ?_, ?_⟩
  · intro hc
    rw [if_pos hc]
    exact ⟨rfl, rfl⟩
  · intro hc hk
    rw [if_neg (by omega), if_pos hk]
    exact ⟨rfl, rfl⟩
  · intro hc hk
    rw [if_neg (by omega), if_neg (by omega)]
    exact ⟨rfl, rfl⟩

/-- Witness for C1 at a concrete input: spo2 85 (critical), heart rate 75
(normal), temperature missing: result 2 and risk HIGH. -/
theorem C1_risk_aggregation_witness :
    0 < criticalCount (some 85) (some 75) none ∧
    (predict_health_status 0 (mkRequest (some 85) (some 75) none)
        lookupEmpty).prediction_result = 2 ∧
    (predict_health_status 0 (mkRequest (some 85) (some 75) none)
        lookupEmpty).health_risk_level = HealthRiskLevel.HIGH := by
  refine ⟨by decide, ?_⟩
  exact (C1_risk_aggregation 0 (mkRequest (some 85) (some 75) none)
    lookupEmpty (some 85) (some 75) none rfl).1 (by decide)

/-- C2: the threshold classifier uses inclusive boundaries exactly as stated:
spo2 95 is NORMAL, [90, 95) CONCERNING, below 90 CRITICAL; heart rate 60 and
100 are NORMAL, [40, 60) and (100, 120] CONCERNING, below 40 or above 120
CRITICAL; temperature [36.1, 37.2] NORMAL, [35, 36.1) and (37.2, 38]
CONCERNING, below 35 or above 38 CRITICAL. -/
theorem C2_threshold_boundaries :
    (spo2Band 95 = Band.NORMAL) ∧
    (∀ x : ℚ, spo2Band x = Band.NORMAL ↔ 95 ≤ x) ∧
    (∀ x : ℚ, spo2Band x = Band.CONCERNING ↔ 90 ≤ x ∧ x < 95) ∧
    (∀ x : ℚ, spo2Band x = Band.CRITICAL ↔ x < 90) ∧
    (heartRateBand 60 = Band.NORMAL) ∧
    (heartRateBand 100 = Band.NORMAL) ∧
    (∀ x : ℚ, heartRateBand x = Band.NORMAL ↔ 60 ≤ x ∧ x ≤ 100) ∧
    (∀ x : ℚ, heartRateBand x = Band.CONCERNING ↔ (40 ≤ x ∧ x < 60) ∨ (100 < x ∧ x ≤ 120)) ∧
    (∀ x : ℚ, heartRateBand x = Band.CRITICAL ↔ x < 40 ∨ 120 < x) ∧
    (∀ x : ℚ, tempBand x = Band.NORMAL ↔ 36.1 ≤ x ∧ x ≤ 37.2) ∧
    (∀ x : ℚ, tempBand x = Band.CONCERNING ↔ (35 ≤ x ∧ x < 36.1) ∨ (37.2 < x ∧ x ≤ 38)) ∧
    (∀ x : ℚ, tempBand x = Band.CRITICAL ↔ x < 35 ∨ 38 < x) :=
  ⟨by decide, spo2Band_eq_NORMAL, spo2Band_eq_CONCERNING, spo2Band_eq_CRITICAL,
   by decide, by decide, heartRateBand_eq_NORMAL, heartRateBand_eq_CONCERNING,
   heartRateBand_eq_CRITICAL, tempBand_eq_NORMAL, tempBand_eq_CONCERNING,
   tempBand_eq_CRITICAL⟩

/-- Witness for C2 at the boundary inputs the specification names. -/
theorem C2_threshold_boundaries_witness :
    spo2Band 94.999 = Band.CONCERNING ∧ spo2Band 89.999 = Band.CRITICAL ∧
    heartRateBand 59.999 = Band.CONCERNING ∧
    heartRateBand 100.001 = Band.CONCERNING := by
  refine ⟨(C2_threshold_boundaries.2.2.1 94.999).mpr (by norm_num),
    (C2_threshold_boundaries.2.2.2.1 89.999).mpr (by norm_num),
    (C2_threshold_boundaries.2.2.2.2.2.2.2.1 59.999).mpr (Or.inl (by norm_num)),
    (C2_threshold_boundaries.2.2.2.2.2.2.2.1 100.001).mpr (Or.inr (by norm_num))⟩

/-- C6: the confidence score is the number of non-missing resolved vitals over
3, hence one of 0, 1/3, 2/3, 1; none resolvable gives 0, exactly two gives 2/3
and all three gives 1, independently of the values themselves. -/
theorem C6_confidence_quantization (now : ℤ) (request : HealthPredictionRequest)
    (lookup : MetricType → Except StoreError (List Metric)) (s h t : Option ℚ)
    (hres : _get_health_parameters request lookup = (s, h, t)) :
    (predict_health_status now request lookup).confidence_score
        = (List.countP (fun p => p.isSome) [s, h, t] : ℚ) / 3 ∧
    ((predict_health_status now request lookup).confidence_score = 0 ∨
     (predict_health_status now request lookup).confidence_score = 1/3 ∨
     (predict_health_status now request lookup).confidence_score = 2/3 ∨
     (predict_health_status now request lookup).confidence_score = 1) ∧
    (s = none → h = none → t = none →
      (predict_health_status now request lookup).confidence_score = 0) ∧
    (List.countP (fun p => p.isSome) [s, h, t] = 2 →
      (predict_health_status now request lookup).confidence_score = 2/3) ∧
    (s.isSome → h.isSome → t.isSome →
      (predict_health_status now request lookup).confidence_score = 1) := by
  obtain ⟨-, -, hc, -, -, -⟩ := predict_projections now request lookup s h t hres
  rw [hc]
  refine ⟨rfl, ?_, ?_, ?_, ?_⟩
  · rcases s with _ | a <;> rcases h with _ | b <;> rcases t with _ | c <;>
      simp only [List.countP_cons, List.countP_nil, Option.isSome] <;>
      norm_num
  · rintro rfl rfl rfl
    norm_num [List.countP_cons, List.countP_nil]
  · intro h2
    rw [h2]
    norm_num
  · intro hs hh ht
    rcases s with _ | a
    · simp at hs
    rcases h with _ | b
    · simp at hh
    rcases t with _ | c
    · simp at ht
    norm_num [List.countP_cons, List.countP_nil]

/-- Witness for C6 with exactly two resolvable vitals (spo2 92, heart rate 130,
temperature missing with an empty store): confidence 2/3. -/
theorem C6_confidence_quantization_witness :
    List.countP (fun p => p.isSome)
        [some (92 : ℚ), some (130 : ℚ), (none : Option ℚ)] = 2 ∧
    (predict_health_status 0 (mkRequest (some 92) (some 130) none)
        lookupEmpty).confidence_score = 2/3 := by
  refine ⟨by decide, ?_⟩
  exact (C6_confidence_quantization 0 (mkRequest (some 92) (some 130) none)
    lookupEmpty (some 92) (some 130) none rfl).2.2.2.1 (by decide)

/-- C9: monotonic severity — with the other two vitals held at NORMAL values,
if the varying vital's band weakly worsens the prediction result is
non-decreasing, it always equals the severity (0/1/2) of the varying band, and
the risk level is the canonical image (LOW/MEDIUM/HIGH) of that severity. -/
theorem C9_monotonic_severity :
    (∀ x1 x2 y z : ℚ, heartRateBand y = Band.NORMAL → tempBand z = Band.NORMAL →
      bandSeverity (spo2Band x1) ≤ bandSeverity (spo2Band x2) →
      _predict_health_status (some x1) (some y) (some z)
          ≤ _predict_health_status (some x2) (some y) (some z) ∧
      _predict_health_status (some x1) (some y) (some z) = bandSeverity (spo2Band x1) ∧
      _map_prediction_to_risk_level (_predict_health_status (some x1) (some y) (some z))
          = _map_prediction_to_risk_level (bandSeverity (spo2Band x1))) ∧
    (∀ y1 y2 x z : ℚ, spo2Band x = Band.NORMAL → tempBand z = Band.NORMAL →
      bandSeverity (heartRateBand y1) ≤ bandSeverity (heartRateBand y2) →
      _predict_health_status (some x) (some y1) (some z)
          ≤ _predict_health_status (some x) (some y2) (some z) ∧
      _predict_health_status (some x) (some y1) (some z) = bandSeverity (heartRateBand y1) ∧
      _map_prediction_to_risk_level (_predict_health_status (some x) (some y1) (some z))
          = _map_prediction_to_risk_level (bandSeverity (heartRateBand y1))) ∧
    (∀ z1 z2 x y : ℚ, spo2Band x = Band.NORMAL → heartRateBand y = Band.NORMAL →
      bandSeverity (tempBand z1) ≤ bandSeverity (tempBand z2) →
      _predict_health_status (some x) (some y) (some z1)
          ≤ _predict_health_status (some x) (some y) (some z2) ∧
      _predict_health_status (some x) (some y) (some z1) = bandSeverity (tempBand z1) ∧
      _map_prediction_to_risk_level (_predict_health_status (some x) (some y) (some z1))
          = _map_prediction_to_risk_level (bandSeverity (tempBand z1))) ∧
    (_map_prediction_to_risk_level (bandSeverity Band.NORMAL) = HealthRiskLevel.LOW) ∧
    (_map_prediction_to_risk_level (bandSeverity Band.CONCERNING) = HealthRiskLevel.MEDIUM) ∧
    (_map_prediction_to_risk_level (bandSeverity Band.CRITICAL) = HealthRiskLevel.HIGH) := by
  refine ⟨?_, ?_, ?_, rfl, rfl, rfl⟩
  · intro x1 x2 y z hy hz hle
    rw [predict_spo2_varies x1 y z hy hz, predict_spo2_varies x2 y z hy hz]
    exact ⟨hle, rfl, rfl⟩
  · intro y1 y2 x z hx hz hle
    rw [predict_hr_varies x y1 z hx hz, predict_hr_varies x y2 z hx hz]
    exact ⟨hle, rfl, rfl⟩
  · intro z1 z2 x y hx hy hle
    rw [predict_temp_varies x y z1 hx hy, predict_temp_varies x y z2 hx hy]
    exact ⟨hle, rfl, rfl⟩

/-- Witness for C9: SpO2 worsening from 96 (normal) to 92 (concerning) with
heart rate 75 and temperature 37 held normal makes the result rise 0 ≤ 1. -/
theorem C9_monotonic_severity_witness :
    heartRateBand 75 = Band.NORMAL ∧ tempBand 37 = Band.NORMAL ∧
    bandSeverity (spo2Band 96) ≤ bandSeverity (spo2Band 92) ∧
    _predict_health_status (some 96) (some 75) (some 37)
        ≤ _predict_health_status (some 92) (some 75) (some 37) := by
  have ht : tempBand 37 = Band.NORMAL := by
    rw [tempBand_eq_NORMAL]
    norm_num
  refine ⟨by decide, ht, by decide, ?_⟩
  exact (C9_monotonic_severity.1 96 92 75 37 (by decide) ht (by decide)).1

/-! Helper lemmas linking the `_generate_metric_averages` comparisons to the
bands (shared proof infrastructure). -/

theorem healthy_spo2 (x : ℚ) :
    decide (spo2_normal_min ≤ x) = decide (spo2Band x = Band.NORMAL) := by
  rw [decide_eq_decide, spo2Band_eq_NORMAL]
  unfold spo2_normal_min
  exact Iff.rfl

theorem healthy_hr (x : ℚ) :
    decide (heart_rate_normal_min ≤ x ∧ x ≤ heart_rate_normal_max)
      = decide (heartRateBand x = Band.NORMAL) := by
  rw [decide_eq_decide, heartRateBand_eq_NORMAL]
  unfold heart_rate_normal_min heart_rate_normal_max
  exact Iff.rfl

theorem healthy_temp (x : ℚ) :
    decide (temp_normal_min ≤ x ∧ x ≤ temp_normal_max)
      = decide (tempBand x = Band.NORMAL) := by
  rw [decide_eq_decide, tempBand_eq_NORMAL]
  unfold temp_normal_min temp_normal_max
  exact Iff.rfl

theorem score_spo2 (x : ℚ) :
    (if spo2Band x = Band.NORMAL then (1.0 : ℚ)
     else if spo2_concerning_min ≤ x then 0.5 else 0.0)
      = bandScore (spo2Band x) := by
  rcases spo2_band_cases x with ⟨h1, hb⟩ | ⟨h1, h2, hb⟩ | ⟨h1, h2, hb⟩ <;> rw [hb]
  · rw [if_neg (by decide), if_neg (by intro hc; exact absurd h1 (not_lt.mpr hc))]
    norm_num [bandScore]
  · rw [if_neg (by decide), if_pos (not_lt.mp h1)]
    norm_num [bandScore]
  · rw [if_pos rfl]
    norm_num [bandScore]

theorem score_hr (x : ℚ) :
    (if heartRateBand x = Band.NORMAL then (1.0 : ℚ)
     else if heart_rate_concerning_min ≤ x ∧ x ≤ heart_rate_concerning_max then 0.5 else 0.0)
      = bandScore (heartRateBand x) := by
  rcases heart_rate_band_cases x with ⟨h1, hb⟩ | ⟨h1, h2, hb⟩ | ⟨h1, h2, hb⟩ <;> rw [hb]
  · rw [if_neg (by decide), if_neg ?_]
    · norm_num [bandScore]
    · rintro ⟨u, v⟩
      rcases h1 with h1 | h1 <;> linarith
  · push_neg at h1
    rw [if_neg (by decide), if_pos ⟨h1.1, h1.2⟩]
    norm_num [bandScore]
  · rw [if_pos rfl]
    norm_num [bandScore]

theorem score_temp (x : ℚ) :
    (if tempBand x = Band.NORMAL then (1.0 : ℚ)
     else if temp_concerning_min ≤ x ∧ x ≤ temp_concerning_max then 0.5 else 0.0)
      = bandScore (tempBand x) := by
  rcases temp_band_cases x with ⟨h1, hb⟩ | ⟨h1, h2, hb⟩ | ⟨h1, h2, hb⟩ <;> rw [hb]
  · rw [if_neg (by decide), if_neg ?_]
    · norm_num [bandScore]
    · rintro ⟨u, v⟩
      rcases h1 with h1 | h1 <;> linarith
  · push_neg at h1
    rw [if_neg (by decide), if_pos ⟨h1.1, h1.2⟩]
    norm_num [bandScore]
  · rw [if_pos rfl]
    norm_num [bandScore]

/-- The per-metric SpO2 summary as §4.6 step 5 describes it: omitted when
missing, else value with unit, normal-band boolean and band score. -/
def spo2Summary : Option ℚ → List MetricAverage
  | none => []
  | some x => [{ metric_type := "spo2", average_value := x, unit := "%",
                 data_points := 1,
                 is_healthy := decide (spo2Band x = Band.NORMAL),
                 health_score := bandScore (spo2Band x) }]

/-- The per-metric heart-rate summary as §4.6 step 5 describes it. -/
def hrSummary : Option ℚ → List MetricAverage
  | none => []
  | some x => [{ metric_type := "heart_rate", average_value := x, unit := "bpm",
                 data_points := 1,
                 is_healthy := decide (heartRateBand x = Band.NORMAL),
                 health_score := bandScore (heartRateBand x) }]

/-- The per-metric body-temperature summary as §4.6 step 5 describes it. -/
def tempSummary : Option ℚ → List MetricAverage
  | none => []
  | some x => [{ metric_type := "body_temperature", average_value := x, unit := "°C",
                 data_points := 1,
                 is_healthy := decide (tempBand x = Band.NORMAL),
                 health_score := bandScore (tempBand x) }]

/-- C8: the response's `metric_averages` omits each missing vital entirely and
otherwise carries, in canonical order, a summary whose `is_healthy` is true
exactly when the resolved value is in the NORMAL band and whose `health_score`
is 1 for NORMAL, 1/2 for CONCERNING and 0 for CRITICAL. -/
theorem C8_metric_averages (now : ℤ) (request : HealthPredictionRequest)
    (lookup : MetricType → Except StoreError (List Metric)) (s h t : Option ℚ)
    (hres : _get_health_parameters request lookup = (s, h, t)) :
    (predict_health_status now request lookup).metric_averages
      = spo2Summary s ++ hrSummary h ++ tempSummary t := by
  obtain ⟨-, -, -, hm, -, -⟩ := predict_projections now request lookup s h t hres
  rw [hm]
  rcases s with _ | x <;> rcases h with _ | y <;> rcases t with _ | z <;>
    simp only [_generate_metric_averages, spo2Summary, hrSummary, tempSummary,
      healthy_spo2, healthy_hr, healthy_temp,
      decide_eq_true_eq, score_spo2, score_hr, score_temp,
      List.nil_append, List.append_nil]

/-- Witness for C8: spo2 92 (concerning) with the other vitals missing yields a
single summary with `is_healthy = false` and `health_score = 1/2`. -/
theorem C8_metric_averages_witness :
    (predict_health_status 0 (mkRequest (some 92) none none)
        lookupEmpty).metric_averages
      = [{ metric_type := "spo2", average_value := 92, unit := "%",
           data_points := 1, is_healthy := false, health_score := 1/2 }] := by
  have h := C8_metric_averages 0 (mkRequest (some 92) none none) lookupEmpty
    (some 92) none none rfl
  rw [h]
  rfl

/-!
Spec-side vocabulary for §4.4 (explainability): per-vital risk-factor and
recommendation lists, phrased by band, in the canonical order SpO2, heart
rate, body temperature.  The strings are the source's literals.
-/

/-- Risk factor emitted for the SpO2 vital (empty when missing or NORMAL). -/
def spo2RiskFactor : Option ℚ → List String
  | none => []
  | some x =>
      if spo2Band x = Band.NORMAL then []
      else ["Low SpO2 level (" ++ toString x ++ "%)"]

/-- Recommendation emitted for the SpO2 vital, with severity by band. -/
def spo2Rec : Option ℚ → List String
  | none => []
  | some x =>
      match spo2Band x with
      | Band.NORMAL => []
      | Band.CONCERNING => ["Monitor oxygen levels and rest"]
      | Band.CRITICAL => ["Seek immediate medical attention for low oxygen levels"]

/-- Risk factor emitted for the heart-rate vital. -/
def hrRiskFactor : Option ℚ → List String
  | none => []
  | some x =>
      if heartRateBand x = Band.NORMAL then []
      else if x < heart_rate_normal_min then ["Low heart rate (" ++ toString x ++ " bpm)"]
      else ["High heart rate (" ++ toString x ++ " bpm)"]

/-- Recommendation emitted for the heart-rate vital, with severity by band. -/
def hrRec : Option ℚ → List String
  | none => []
  | some x =>
      match heartRateBand x with
      | Band.NORMAL => []
      | Band.CONCERNING =>
          if x < heart_rate_normal_min then ["Monitor heart rate and avoid strenuous activity"]
          else ["Rest and monitor heart rate"]
      | Band.CRITICAL =>
          if x < heart_rate_normal_min then ["Seek immediate medical attention for bradycardia"]
          else ["Seek immediate medical attention for tachycardia"]

/-- Risk factor emitted for the body-temperature vital. -/
def tempRiskFactor : Option ℚ → List String
  | none => []
  | some x =>
      if tempBand x = Band.NORMAL then []
      else if x < temp_normal_min then ["Low body temperature (" ++ toString x ++ "°C)"]
      else ["High body temperature (" ++ toString x ++ "°C)"]

/-- Recommendation emitted for the body-temperature vital, with severity by
band. -/
def tempRec : Option ℚ → List String
  | none => []
  | some x =>
      match tempBand x with
      | Band.NORMAL => []
      | Band.CONCERNING =>
          if x < temp_normal_min then ["Warm up and monitor temperature"]
          else ["Rest, hydrate, and monitor temperature"]
      | Band.CRITICAL =>
          if x < temp_normal_min then ["Seek immediate medical attention for hypothermia"]
          else ["Seek immediate medical attention for fever"]

/-- All non-missing vitals are in their NORMAL band. -/
def allPresentNormal (s h t : Option ℚ) : Bool :=
  (presentBands s h t).all (fun b => b == Band.NORMAL)

/-- A band list has no CRITICAL and no CONCERNING entry iff it is all
NORMAL. -/
theorem count_zero_iff_all_normal (bs : List Band) :
    (bs.count Band.CRITICAL = 0 ∧ bs.count Band.CONCERNING = 0) ↔
      bs.all (fun b => b == Band.NORMAL) = true := by
  induction bs with
  | nil => simp
  | cons b l ih =>
      cases b <;> simp [List.count_cons, ih]

/-- The prediction result is 0 exactly when every non-missing vital is
NORMAL. -/
theorem predict_eq_zero_iff (s h t : Option ℚ) :
    _predict_health_status s h t = 0 ↔ allPresentNormal s h t = true := by
  rw [predict_eq_counts]
  have hlist := count_zero_iff_all_normal (presentBands s h t)
  unfold allPresentNormal
  unfold criticalCount concerningCount at *
  split_ifs with hc hk
  · constructor
    · intro h0
      exact absurd h0 (by decide)
    · intro hall
      have := hlist.mpr hall
      omega
  · constructor
    · intro h0
      exact absurd h0 (by decide)
    · intro hall
      have := hlist.mpr hall
      omega
  · constructor
    · intro _
      exact hlist.mp ⟨by omega, by omega⟩
    · intro _
      rfl

/-- Proof helper: the SpO2 block of `_generate_risk_analysis`. -/
def riskStepSpo2 (x : ℚ) (acc : List String × List String) :
    List String × List String :=
  if x < spo2_normal_min then
    (acc.1 ++ ["Low SpO2 level (" ++ toString x ++ "%)"],
     acc.2 ++ [if x < spo2_concerning_min then
                 "Seek immediate medical attention for low oxygen levels"
               else "Monitor oxygen levels and rest"])
  else acc

/-- Proof helper: the heart-rate block of `_generate_risk_analysis`. -/
def riskStepHr (x : ℚ) (acc : List String × List String) :
    List String × List String :=
  if x < heart_rate_normal_min then
    (acc.1 ++ ["Low heart rate (" ++ toString x ++ " bpm)"],
     acc.2 ++ [if x < heart_rate_concerning_min then
                 "Seek immediate medical attention for bradycardia"
               else "Monitor heart rate and avoid strenuous activity"])
  else if heart_rate_normal_max < x then
    (acc.1 ++ ["High heart rate (" ++ toString x ++ " bpm)"],
     acc.2 ++ [if heart_rate_concerning_max < x then
                 "Seek immediate medical attention for tachycardia"
               else "Rest and monitor heart rate"])
  else acc

/-- Proof helper: the body-temperature block of `_generate_risk_analysis`. -/
def riskStepTemp (x : ℚ) (acc : List String × List String) :
    List String × List String :=
  if x < temp_normal_min then
    (acc.1 ++ ["Low body temperature (" ++ toString x ++ "°C)"],
     acc.2 ++ [if x < temp_concerning_min then
                 "Seek immediate medical attention for hypothermia"
               else "Warm up and monitor temperature"])
  else if temp_normal_max < x then
    (acc.1 ++ ["High body temperature (" ++ toString x ++ "°C)"],
     acc.2 ++ [if temp_concerning_max < x then
                 "Seek immediate medical attention for fever"
               else "Rest, hydrate, and monitor temperature"])
  else acc

/-- The SpO2 block appends exactly the band-determined factor and
recommendation. -/
theorem riskStepSpo2_eq (x : ℚ) (acc : List String × List String) :
    riskStepSpo2 x acc
      = (acc.1 ++ spo2RiskFactor (some x), acc.2 ++ spo2Rec (some x)) := by
  have e1 : spo2_concerning_min = (90 : ℚ) := rfl
  have e2 : spo2_normal_min = (95 : ℚ) := rfl
  cases hb : spo2Band x
  · have hn := (spo2Band_eq_NORMAL x).mp hb
    simp only [riskStepSpo2, spo2RiskFactor, spo2Rec]
    rw [hb, e1, e2]
    simp [not_lt.mpr hn]
  · have hn := (spo2Band_eq_CONCERNING x).mp hb
    simp only [riskStepSpo2, spo2RiskFactor, spo2Rec]
    rw [hb, e1, e2]
    simp [hn.2, not_lt.mpr hn.1]
  · have hn := (spo2Band_eq_CRITICAL x).mp hb
    simp only [riskStepSpo2, spo2RiskFactor, spo2Rec]
    rw [hb, e1, e2]
    simp [hn, show x < (95 : ℚ) by linarith]

/-- The heart-rate block appends exactly the band-determined factor and
recommendation. -/
theorem riskStepHr_eq (x : ℚ) (acc : List String × List String) :
    riskStepHr x acc
      = (acc.1 ++ hrRiskFactor (some x), acc.2 ++ hrRec (some x)) := by
  have e1 : heart_rate_concerning_min = (40 : ℚ) := rfl
  have e2 : heart_rate_normal_min = (60 : ℚ) := rfl
  have e3 : heart_rate_normal_max = (100 : ℚ) := rfl
  have e4 : heart_rate_concerning_max = (120 : ℚ) := rfl
  cases hb : heartRateBand x
  · have hn := (heartRateBand_eq_NORMAL x).mp hb
    simp only [riskStepHr, hrRiskFactor, hrRec]
    rw [hb, e1, e2, e3, e4]
    simp [not_lt.mpr hn.1, not_lt.mpr hn.2]
  · have hn := (heartRateBand_eq_CONCERNING x).mp hb
    simp only [riskStepHr, hrRiskFactor, hrRec]
    rw [hb, e1, e2, e3, e4]
    rcases hn with ⟨u, v⟩ | ⟨u, v⟩
    · simp [v, not_lt.mpr u]
    · simp [u, not_lt.mpr (show (60 : ℚ) ≤ x by linarith), not_lt.mpr v]
  · have hn := (heartRateBand_eq_CRITICAL x).mp hb
    simp only [riskStepHr, hrRiskFactor, hrRec]
    rw [hb, e1, e2, e3, e4]
    rcases hn with u | u
    · simp [u, show x < (60 : ℚ) by linarith]
    · simp [u, not_lt.mpr (show (60 : ℚ) ≤ x by linarith),
        show (100 : ℚ) < x by linarith]

/-- The body-temperature block appends exactly the band-determined factor and
recommendation. -/
theorem riskStepTemp_eq (x : ℚ) (acc : List String × List String) :
    riskStepTemp x acc
      = (acc.1 ++ tempRiskFactor (some x), acc.2 ++ tempRec (some x)) := by
  have e1 : temp_concerning_min = (35 : ℚ) := rfl
  have e2 : temp_normal_min = (36.1 : ℚ) := rfl
  have e3 : temp_normal_max = (37.2 : ℚ) := rfl
  have e4 : temp_concerning_max = (38 : ℚ) := rfl
  cases hb : tempBand x
  · have hn := (tempBand_eq_NORMAL x).mp hb
    simp only [riskStepTemp, tempRiskFactor, tempRec]
    rw [hb, e1, e2, e3, e4]
    simp [not_lt.mpr hn.1, not_lt.mpr hn.2]
  · have hn := (tempBand_eq_CONCERNING x).mp hb
    simp only [riskStepTemp, tempRiskFactor, tempRec]
    rw [hb, e1, e2, e3, e4]
    rcases hn with ⟨u, v⟩ | ⟨u, v⟩
    · simp [v, not_lt.mpr u]
    · simp [u, not_lt.mpr (show (36.1 : ℚ) ≤ x by linarith), not_lt.mpr v]
  · have hn := (tempBand_eq_CRITICAL x).mp hb
    simp only [riskStepTemp, tempRiskFactor, tempRec]
    rw [hb, e1, e2, e3, e4]
    rcases hn with u | u
    · simp [u, show x < (36.1 : ℚ) by linarith]
    · simp [u, not_lt.mpr (show (36.1 : ℚ) ≤ x by linarith),
        show (37.2 : ℚ) < x by linarith]

/-- For a non-zero prediction, `_generate_risk_analysis` emits exactly the
band-determined factor and recommendation lists, in canonical order. -/
theorem risk_analysis_eq (pr : ℕ) (hpr : pr ≠ 0) (s h t : Option ℚ) :
    _generate_risk_analysis pr s h t
      = (spo2RiskFactor s ++ hrRiskFactor h ++ tempRiskFactor t,
         spo2Rec s ++ hrRec h ++ tempRec t) := by
  rcases s with _ | x <;> rcases h with _ | y <;> rcases t with _ | z
  · have e : _generate_risk_analysis pr none none none
        = if pr = 0 then
            ([], ["All health parameters are within normal ranges. Continue monitoring."])
          else ([], []) := rfl
    rw [e, if_neg hpr]
    simp [spo2RiskFactor, hrRiskFactor, tempRiskFactor, spo2Rec, hrRec, tempRec]
  · have e : _generate_risk_analysis pr none none (some z)
        = if pr = 0 then
            ([], ["All health parameters are within normal ranges. Continue monitoring."])
          else riskStepTemp z ([], []) := rfl
    rw [e, if_neg hpr, riskStepTemp_eq]
    simp [spo2RiskFactor, hrRiskFactor, spo2Rec, hrRec]
  · have e : _generate_risk_analysis pr none (some y) none
        = if pr = 0 then
            ([], ["All health parameters are within normal ranges. Continue monitoring."])
          else riskStepHr y ([], []) := rfl
    rw [e, if_neg hpr, riskStepHr_eq]
    simp [spo2RiskFactor, tempRiskFactor, spo2Rec, tempRec]
  · have e : _generate_risk_analysis pr none (some y) (some z)
        = if pr = 0 then
            ([], ["All health parameters are within normal ranges. Continue monitoring."])
          else riskStepTemp z (riskStepHr y ([], [])) := rfl
    rw [e, if_neg hpr, riskStepHr_eq, riskStepTemp_eq]
    simp [spo2RiskFactor, spo2Rec]
  · have e : _generate_risk_analysis pr (some x) none none
        = if pr = 0 then
            ([], ["All health parameters are within normal ranges. Continue monitoring."])
          else riskStepSpo2 x ([], []) := rfl
    rw [e, if_neg hpr, riskStepSpo2_eq]
    simp [hrRiskFactor, tempRiskFactor, hrRec, tempRec]
  · have e : _generate_risk_analysis pr (some x) none (some z)
        = if pr = 0 then
            ([], ["All health parameters are within normal ranges. Continue monitoring."])
          else riskStepTemp z (riskStepSpo2 x ([], [])) := rfl
    rw [e, if_neg hpr, riskStepSpo2_eq, riskStepTemp_eq]
    simp [hrRiskFactor, hrRec]
  · have e : _generate_risk_analysis pr (some x) (some y) none
        = if pr = 0 then
            ([], ["All health parameters are within normal ranges. Continue monitoring."])
          else riskStepHr y (riskStepSpo2 x ([], [])) := rfl
    rw [e, if_neg hpr, riskStepSpo2_eq, riskStepHr_eq]
    simp [tempRiskFactor, tempRec]
  · have e : _generate_risk_analysis pr (some x) (some y) (some z)
        = if pr = 0 then
            ([], ["All health parameters are within normal ranges. Continue monitoring."])
          else riskStepTemp z (riskStepHr y (riskStepSpo2 x ([], []))) := rfl
    rw [e, if_neg hpr, riskStepSpo2_eq, riskStepHr_eq, riskStepTemp_eq]
    simp

/-- Risk-factor list of a non-zero prediction. -/
theorem risk_analysis_eq_1 (pr : ℕ) (hpr : pr ≠ 0) (s h t : Option ℚ) :
    (_generate_risk_analysis pr s h t).1
      = spo2RiskFactor s ++ hrRiskFactor h ++ tempRiskFactor t := by
  rw [risk_analysis_eq pr hpr]

/-- Recommendation list of a non-zero prediction. -/
theorem risk_analysis_eq_2 (pr : ℕ) (hpr : pr ≠ 0) (s h t : Option ℚ) :
    (_generate_risk_analysis pr s h t).2
      = spo2Rec s ++ hrRec h ++ tempRec t := by
  rw [risk_analysis_eq pr hpr]

/-- C7: whenever some non-missing vital is outside its NORMAL band, the
response carries exactly one band-phrased risk factor and one severity-matched
recommendation per such vital, in the order SpO2, heart rate, body
temperature; when every non-missing vital is NORMAL the risk factors are
empty and the recommendations are exactly the single affirmation string. -/
theorem C7_explainability (now : ℤ) (request : HealthPredictionRequest)
    (lookup : MetricType → Except StoreError (List Metric)) (s h t : Option ℚ)
    (hres : _get_health_parameters request lookup = (s, h, t)) :
    (allPresentNormal s h t = false →
      (predict_health_status now request lookup).risk_factors
          = spo2RiskFactor s ++ hrRiskFactor h ++ tempRiskFactor t ∧
      (predict_health_status now request lookup).recommendations
          = spo2Rec s ++ hrRec h ++ tempRec t) ∧
    (allPresentNormal s h t = true →
      (predict_health_status now request lookup).risk_factors = [] ∧
      (predict_health_status now request lookup).recommendations
          = ["All health parameters are within normal ranges. Continue monitoring."]) := by
  obtain ⟨-, -, -, -, hf, hr⟩ := predict_projections now request lookup s h t hres
  constructor
  · intro hna
    have hnz : _predict_health_status s h t ≠ 0 := by
      intro h0
      have := (predict_eq_zero_iff s h t).mp h0
      rw [this] at hna
      cases hna
    rw [hf, hr, risk_analysis_eq_1 _ hnz, risk_analysis_eq_2 _ hnz]
    exact ⟨rfl, rfl⟩
  · intro hay
    have h0 : _predict_health_status s h t = 0 := (predict_eq_zero_iff s h t).mpr hay
    rw [hf, hr, h0]
    exact ⟨rfl, rfl⟩

/-- Witness for C7 at the specification's mixed example: spo2 92 (concerning),
heart rate 130 (critical), temperature missing. -/
theorem C7_explainability_witness :
    allPresentNormal (some 92) (some 130) none = false ∧
    (predict_health_status 0 (mkRequest (some 92) (some 130) none)
        lookupEmpty).risk_factors
      = ["Low SpO2 level (92%)", "High heart rate (130 bpm)"] ∧
    (predict_health_status 0 (mkRequest (some 92) (some 130) none)
        lookupEmpty).recommendations
      = ["Monitor oxygen levels and rest",
         "Seek immediate medical attention for tachycardia"] := by
  have hc := (C7_explainability 0 (mkRequest (some 92) (some 130) none) lookupEmpty
      (some 92) (some 130) none rfl).1 (by decide)
  refine ⟨by decide, ?_, ?_⟩
  · rw [hc.1]
    rfl
  · rw [hc.2]
    rfl

/-! Emptiness of the per-vital lists is equivalent to the band being NORMAL
(shared proof infrastructure for C10). -/

theorem spo2RiskFactor_nil_iff (x : ℚ) :
    spo2RiskFactor (some x) = [] ↔ spo2Band x = Band.NORMAL := by
  cases hb : spo2Band x <;>
    simp only [spo2RiskFactor, hb] <;>
    (try split_ifs) <;>
    simp_all

theorem spo2Rec_nil_iff (x : ℚ) :
    spo2Rec (some x) = [] ↔ spo2Band x = Band.NORMAL := by
  cases hb : spo2Band x <;>
    simp only [spo2Rec, hb] <;>
    (try split_ifs) <;>
    simp_all

theorem hrRiskFactor_nil_iff (x : ℚ) :
    hrRiskFactor (some x) = [] ↔ heartRateBand x = Band.NORMAL := by
  cases hb : heartRateBand x <;>
    simp only [hrRiskFactor, hb] <;>
    (try split_ifs) <;>
    simp_all

theorem hrRec_nil_iff (x : ℚ) :
    hrRec (some x) = [] ↔ heartRateBand x = Band.NORMAL := by
  cases hb : heartRateBand x <;>
    simp only [hrRec, hb] <;>
    (try split_ifs) <;>
    simp_all

theorem tempRiskFactor_nil_iff (x : ℚ) :
    tempRiskFactor (some x) = [] ↔ tempBand x = Band.NORMAL := by
  cases hb : tempBand x <;>
    simp only [tempRiskFactor, hb] <;>
    (try split_ifs) <;>
    simp_all

theorem tempRec_nil_iff (x : ℚ) :
    tempRec (some x) = [] ↔ tempBand x = Band.NORMAL := by
  cases hb : tempBand x <;>
    simp only [tempRec, hb] <;>
    (try split_ifs) <;>
    simp_all

theorem spo2RiskFactor_none : spo2RiskFactor none = [] := rfl

theorem spo2Rec_none : spo2Rec none = [] := rfl

theorem hrRiskFactor_none : hrRiskFactor none = [] := rfl

theorem hrRec_none : hrRec none = [] := rfl

theorem tempRiskFactor_none : tempRiskFactor none = [] := rfl

theorem tempRec_none : tempRec none = [] := rfl

/-- The concatenated risk-factor list is empty iff every non-missing vital is
NORMAL, and likewise for the concatenated recommendation list. -/
theorem lists_empty_iff (s h t : Option ℚ) :
    ((spo2RiskFactor s ++ hrRiskFactor h ++ tempRiskFactor t = []) ↔
       allPresentNormal s h t = true) ∧
    ((spo2Rec s ++ hrRec h ++ tempRec t = []) ↔
       allPresentNormal s h t = true) := by
  rcases s with _ | x <;> rcases h with _ | y <;> rcases t with _ | z <;>
    constructor <;>
    simp [allPresentNormal, presentBands, List.append_eq_nil,
      spo2RiskFactor_nil_iff, spo2Rec_nil_iff, hrRiskFactor_nil_iff,
      hrRec_nil_iff, tempRiskFactor_nil_iff, tempRec_nil_iff,
      spo2RiskFactor_none, spo2Rec_none, hrRiskFactor_none, hrRec_none,
      tempRiskFactor_none, tempRec_none]

/-- C10: every response has a non-empty recommendation list, and its risk
factors are empty exactly when the prediction result is 0 — including the
all-vitals-missing case, which yields result 0 with the affirmation
recommendation and no risk factors. -/
theorem C10_response_invariants (now : ℤ) (request : HealthPredictionRequest)
    (lookup : MetricType → Except StoreError (List Metric)) (s h t : Option ℚ)
    (hres : _get_health_parameters request lookup = (s, h, t)) :
    (predict_health_status now request lookup).recommendations ≠ [] ∧
    ((predict_health_status now request lookup).risk_factors = [] ↔
      (predict_health_status now request lookup).prediction_result = 0) ∧
    (s = none → h = none → t = none →
      (predict_health_status now request lookup).prediction_result = 0 ∧
      (predict_health_status now request lookup).risk_factors = [] ∧
      (predict_health_status now request lookup).recommendations
        = ["All health parameters are within normal ranges. Continue monitoring."]) := by
  obtain ⟨hp, -, -, -, hf, hr⟩ := predict_projections now request lookup s h t hres
  by_cases h0 : _predict_health_status s h t = 0
  · refine ⟨?_, ?_, ?_⟩
    · rw [hr, h0]
      simp [_generate_risk_analysis]
    · rw [hf, hp, h0]
      simp [_generate_risk_analysis]
    · intro _ _ _
      rw [hp, hf, hr, h0]
      simp [_generate_risk_analysis]
  · refine ⟨?_, ?_, ?_⟩
    · rw [hr, risk_analysis_eq_2 _ h0]
      intro hnil
      exact h0 ((predict_eq_zero_iff s h t).mpr ((lists_empty_iff s h t).2.mp hnil))
    · rw [hf, hp, risk_analysis_eq_1 _ h0]
      constructor
      · intro hnil
        exact ((h0 ((predict_eq_zero_iff s h t).mpr
          ((lists_empty_iff s h t).1.mp hnil))).elim)
      · intro h00
        exact absurd h00 h0
    · rintro rfl rfl rfl
      exact (h0 rfl).elim

/-- Witness for C10 at the all-vitals-missing input. -/
theorem C10_response_invariants_witness :
    (predict_health_status 0 (mkRequest none none none)
        lookupEmpty).recommendations ≠ [] ∧
    ((predict_health_status 0 (mkRequest none none none)
        lookupEmpty).risk_factors = [] ↔
      (predict_health_status 0 (mkRequest none none none)
        lookupEmpty).prediction_result = 0) ∧
    ((predict_health_status 0 (mkRequest none none none)
        lookupEmpty).prediction_result = 0 ∧
     (predict_health_status 0 (mkRequest none none none)
        lookupEmpty).risk_factors = [] ∧
     (predict_health_status 0 (mkRequest none none none)
        lookupEmpty).recommendations
       = ["All health parameters are within normal ranges. Continue monitoring."]) := by
  have h := C10_response_invariants 0 (mkRequest none none none) lookupEmpty
    none none none rfl
  exact ⟨h.1, h.2.1, h.2.2 rfl rfl rfl⟩

/-- Two lookups resolving to the same parameters give the same response. -/
theorem predict_congr (now : ℤ) (request : HealthPredictionRequest)
    (l1 l2 : MetricType → Except StoreError (List Metric))
    (hp : _get_health_parameters request l1 = _get_health_parameters request l2) :
    predict_health_status now request l1 = predict_health_status now request l2 := by
  unfold predict_health_status
  rw [hp]

/-- C5: a store failure on a single vital's lookup is absorbed by
`_get_metric_from_db`: that vital resolves to missing exactly as if the store
had returned no rows, the whole response equals the response of the no-data
run, and the call still returns a full response (the embedding is total, as
nothing on this path raises). -/
theorem C5_per_vital_isolation (now : ℤ) (request : HealthPredictionRequest)
    (lookup : MetricType → Except StoreError (List Metric)) (e : StoreError) :
    (request.spo2 = none → lookup MetricType.SPO2 = Except.error e →
      (_get_health_parameters request lookup).1 = none ∧
      predict_health_status now request lookup
        = predict_health_status now request
            (fun mt => if mt = MetricType.SPO2 then Except.ok [] else lookup mt)) ∧
    (request.heart_rate = none → lookup MetricType.HEART_RATE = Except.error e →
      (_get_health_parameters request lookup).2.1 = none ∧
      predict_health_status now request lookup
        = predict_health_status now request
            (fun mt => if mt = MetricType.HEART_RATE then Except.ok [] else lookup mt)) ∧
    (request.body_temperature = none →
      lookup MetricType.SKIN_TEMPERATURE = Except.error e →
      (_get_health_parameters request lookup).2.2 = none ∧
      predict_health_status now request lookup
        = predict_health_status now request
            (fun mt => if mt = MetricType.SKIN_TEMPERATURE then Except.ok []
                       else lookup mt)) := by
  refine ⟨?_, ?_, ?_⟩
  · intro hreq herr
    have hparams : _get_health_parameters request lookup
        = _get_health_parameters request
            (fun mt => if mt = MetricType.SPO2 then Except.ok [] else lookup mt) := by
      unfold _get_health_parameters
      rw [hreq, herr]
      simp [_get_metric_from_db]
    constructor
    · unfold _get_health_parameters
      rw [hreq, herr]
      rfl
    · exact predict_congr now request _ _ hparams
  · intro hreq herr
    have hparams : _get_health_parameters request lookup
        = _get_health_parameters request
            (fun mt => if mt = MetricType.HEART_RATE then Except.ok [] else lookup mt) := by
      unfold _get_health_parameters
      rw [hreq, herr]
      simp [_get_metric_from_db]
    constructor
    · unfold _get_health_parameters
      rw [hreq, herr]
      rfl
    · exact predict_congr now request _ _ hparams
  · intro hreq herr
    have hparams : _get_health_parameters request lookup
        = _get_health_parameters request
            (fun mt => if mt = MetricType.SKIN_TEMPERATURE then Except.ok []
                       else lookup mt) := by
      unfold _get_health_parameters
      rw [hreq, herr]
      simp [_get_metric_from_db]
    constructor
    · unfold _get_health_parameters
      rw [hreq, herr]
      rfl
    · exact predict_congr now request _ _ hparams

/-- A lookup failing on SpO2 and finding no rows elsewhere. -/
def lookupErrSpo2 : MetricType → Except StoreError (List Metric) :=
  fun mt => if mt = MetricType.SPO2 then Except.error StoreError.timeout
            else Except.ok []

/-- Witness for C5: with no overrides and the SpO2 lookup failing, spo2
resolves to missing and the response equals the no-data run's response. -/
theorem C5_per_vital_isolation_witness :
    (mkRequest none none none).spo2 = none ∧
    lookupErrSpo2 MetricType.SPO2 = Except.error StoreError.timeout ∧
    (_get_health_parameters (mkRequest none none none) lookupErrSpo2).1 = none ∧
    predict_health_status 0 (mkRequest none none none) lookupErrSpo2
      = predict_health_status 0 (mkRequest none none none)
          (fun mt => if mt = MetricType.SPO2 then Except.ok []
                     else lookupErrSpo2 mt) := by
  have h := (C5_per_vital_isolation 0 (mkRequest none none none) lookupErrSpo2
    StoreError.timeout).1 rfl rfl
  exact ⟨rfl, rfl, h.1, h.2⟩

/-! Helper lemmas for the store-resolution path (shared proof
infrastructure). -/

theorem filterMap_value_filter (l : List Metric) :
    (l.filter (fun m => m.value.isSome)).filterMap (fun m => m.value)
      = l.filterMap (fun m => m.value) := by
  induction l with
  | nil => rfl
  | cons a l ih =>
      cases hv : a.value <;>
        simp [List.filter_cons, List.filterMap_cons, hv, ih]

theorem isEmpty_filter_value (l : List Metric) :
    (l.filter (fun m => m.value.isSome)).isEmpty
      = (l.filterMap (fun m => m.value)).isEmpty := by
  induction l with
  | nil => rfl
  | cons a l ih =>
      cases hv : a.value <;>
        simp [List.filter_cons, List.filterMap_cons, hv, ih]

/-- The store-backed per-vital resolution as the code composes it: among the
user's non-deleted readings of the kind with timestamps in the CLOSED window
[now − 24h, now], keep the 100 most recent (timestamp-descending, the
repository's `limit`), drop null values, and average; missing when no value
remains. -/
def resolved_from_store (db : DB) (now : ℤ) (user_id : String) (t : MetricType) :
    Option ℚ :=
  let window := db.metrics.filter (fun m =>
    decide (m.timestamp ≤ now) && (decide (now - 86400 ≤ m.timestamp) &&
      (m.metric_type == t && (m.user_id == user_id && m.deleted_at.isNone))))
  let recent := (List.insertionSort (fun a b => b.timestamp ≤ a.timestamp) window).take 100
  let values := recent.filterMap (fun m => m.value)
  if values.isEmpty then none else some (values.sum / (values.length : ℚ))

/-- The database lookup of a vital computes exactly
`resolved_from_store`. -/
theorem get_metric_db_eq (db : DB) (now : ℤ) (u : String) (t : MetricType) :
    _get_metric_from_db (db_lookup db now u t) = resolved_from_store db now u t := by
  simp only [_get_metric_from_db, db_lookup, get_user_metrics, resolved_from_store,
    List.filter_filter, List.drop_zero]
  rw [filterMap_value_filter, isEmpty_filter_value]

/-- A resolved vital as the amended C4 describes it: the explicit override
verbatim when present, else the store average `resolved_from_store`. -/
def resolved_vital (db : DB) (now : ℤ) (override : Option ℚ) (user_id : String)
    (t : MetricType) : Option ℚ :=
  match override with
  | some v => some v
  | none => resolved_from_store db now user_id t

/-- C4 (amended): each of the three vitals resolves to the request's explicit
override verbatim when one is supplied, and otherwise to the arithmetic mean
of the non-null values among the user's 100 most recent non-deleted store
readings of that metric kind with timestamps in the closed window
[now − 24h, now], or missing when no such value exists. -/
theorem C4_resolution (db : DB) (now : ℤ) (request : HealthPredictionRequest) :
    ((_get_health_parameters request (db_lookup db now request.user_id)).1
       = resolved_vital db now request.spo2 request.user_id MetricType.SPO2) ∧
    ((_get_health_parameters request (db_lookup db now request.user_id)).2.1
       = resolved_vital db now request.heart_rate request.user_id
           MetricType.HEART_RATE) ∧
    ((_get_health_parameters request (db_lookup db now request.user_id)).2.2
       = resolved_vital db now request.body_temperature request.user_id
           MetricType.SKIN_TEMPERATURE) := by
  refine ⟨?_, ?_, ?_⟩
  · cases hs : request.spo2 with
    | none =>
        simp only [_get_health_parameters, hs, resolved_vital]
        exact get_metric_db_eq db now request.user_id MetricType.SPO2
    | some v => simp only [_get_health_parameters, hs, resolved_vital]
  · cases hs : request.heart_rate with
    | none =>
        simp only [_get_health_parameters, hs, resolved_vital]
        exact get_metric_db_eq db now request.user_id MetricType.HEART_RATE
    | some v => simp only [_get_health_parameters, hs, resolved_vital]
  · cases hs : request.body_temperature with
    | none =>
        simp only [_get_health_parameters, hs, resolved_vital]
        exact get_metric_db_eq db now request.user_id MetricType.SKIN_TEMPERATURE
    | some v => simp only [_get_health_parameters, hs, resolved_vital]

/-- The per-vital resolver exactly as C4 words it: with no override, the mean
of the values of ALL the user's store readings of the kind with timestamps in
the HALF-OPEN window [now − 24h, now); missing when there are none. -/
def C4_claimed_resolved (db : DB) (now : ℤ) (user_id : String) (t : MetricType) :
    Option ℚ :=
  let values := (db.metrics.filter (fun m =>
      m.user_id == user_id && m.deleted_at.isNone && m.metric_type == t &&
      decide (now - 86400 ≤ m.timestamp) &&
      decide (m.timestamp < now))).filterMap (fun m => m.value)
  if values.isEmpty then none else some (values.sum / (values.length : ℚ))

/-- A heart-rate reading for the C4 fixtures. -/
def mkRowH (v : ℚ) (ts : ℤ) : Metric :=
  { metric_type := MetricType.HEART_RATE, value := some v, timestamp := ts,
    user_id := "u1", deleted_at := none }

/-- Store with a single heart-rate reading timestamped exactly `now`. -/
def dbEdge : DB :=
  { users := [{ id := "u1", deleted_at := none }],
    metrics := [mkRowH 50 1000000] }

/-- Store with 101 heart-rate readings in the last 24h: the 100 most recent
have value 90, the oldest has value 0. -/
def dbMany : DB :=
  { users := [{ id := "u1", deleted_at := none }],
    metrics := (List.range 101).map
      (fun i => mkRowH (if i = 100 then 0 else 90) (999999 - (i : ℤ))) }

/-- Evaluation principle for `resolved_from_store`. -/
theorem resolved_from_store_eval (db : DB) (now : ℤ) (u : String) (t : MetricType)
    (vs : List ℚ)
    (hvs : ((List.insertionSort (fun a b => b.timestamp ≤ a.timestamp)
        (db.metrics.filter (fun m =>
          decide (m.timestamp ≤ now) && (decide (now - 86400 ≤ m.timestamp) &&
            (m.metric_type == t && (m.user_id == u && m.deleted_at.isNone)))))).take
          100).filterMap (fun m => m.value) = vs) :
    resolved_from_store db now u t
      = if vs.isEmpty then none else some (vs.sum / (vs.length : ℚ)) := by
  simp only [resolved_from_store]
  rw [hvs]

/-- Evaluation principle for `C4_claimed_resolved`. -/
theorem claimed_resolved_eval (db : DB) (now : ℤ) (u : String) (t : MetricType)
    (vs : List ℚ)
    (hvs : (db.metrics.filter (fun m =>
        m.user_id == u && m.deleted_at.isNone && m.metric_type == t &&
        decide (now - 86400 ≤ m.timestamp) &&
        decide (m.timestamp < now))).filterMap (fun m => m.value) = vs) :
    C4_claimed_resolved db now u t
      = if vs.isEmpty then none else some (vs.sum / (vs.length : ℚ)) := by
  simp only [C4_claimed_resolved]
  rw [hvs]

/-- Counterexample to C4 as stated: (a) a reading timestamped exactly `now` is
used by the code (closed window) although the claimed half-open window
[now − 24h, now) contains no reading, so the claim demands `missing`; (b) with
101 readings in the window the code averages only the 100 most recent
(repository `limit`), 90, while the claimed mean over all readings is
9000/101 ≠ 90. -/
theorem C4_counterexample :
    ((_get_health_parameters (mkRequest none none none)
        (db_lookup dbEdge 1000000 "u1")).2.1 = some 50 ∧
      C4_claimed_resolved dbEdge 1000000 "u1" MetricType.HEART_RATE = none) ∧
    ((_get_health_parameters (mkRequest none none none)
        (db_lookup dbMany 1000000 "u1")).2.1 = some 90 ∧
      C4_claimed_resolved dbMany 1000000 "u1" MetricType.HEART_RATE
        = some (9000 / 101) ∧
      (9000 / 101 : ℚ) ≠ 90) := by
  refine ⟨⟨?_, ?_⟩, ?_, ?_, ?_⟩
  · have e : (_get_health_parameters (mkRequest none none none)
        (db_lookup dbEdge 1000000 "u1")).2.1
        = _get_metric_from_db (db_lookup dbEdge 1000000 "u1" MetricType.HEART_RATE) :=
      rfl
    rw [e, get_metric_db_eq,
      resolved_from_store_eval dbEdge 1000000 "u1" MetricType.HEART_RATE
        [(50 : ℚ)] (by decide)]
    norm_num
  · rw [claimed_resolved_eval dbEdge 1000000 "u1" MetricType.HEART_RATE [] (by decide)]
    rfl
  · have e : (_get_health_parameters (mkRequest none none none)
        (db_lookup dbMany 1000000 "u1")).2.1
        = _get_metric_from_db (db_lookup dbMany 1000000 "u1" MetricType.HEART_RATE) :=
      rfl
    rw [e, get_metric_db_eq,
      resolved_from_store_eval dbMany 1000000 "u1" MetricType.HEART_RATE
        (List.replicate 100 (90 : ℚ)) (by decide)]
    norm_num [List.sum_replicate, nsmul_eq_mul]
  · rw [claimed_resolved_eval dbMany 1000000 "u1" MetricType.HEART_RATE
        (List.replicate 100 (90 : ℚ) ++ [0]) (by decide)]
    norm_num [List.sum_replicate, nsmul_eq_mul]
  · norm_num

/-- A store with no users and no metrics. -/
def dbNoUsers : DB := { users := [], metrics := [] }

/-- A prediction request for a user id that exists nowhere. -/
def reqGhost : HealthPredictionRequest :=
  { user_id := "ghost", spo2 := none, heart_rate := none,
    body_temperature := none, include_metrics := false,
    prediction_horizon_hours := some 24 }

/-- C3 exhibit (code bug): for a user id absent from the user table the metric
query returns the empty list exactly as for an existing user with no data of
that kind — `get_user_metrics` never runs the `_validate_user_exists` check —
and `predict_health_status` completes with a full normal response
(result 0, risk LOW, confidence 0, affirmation recommendation) instead of
aborting with the not-found error that the service's
`except UserNotFoundException` handler and the route's 404 branch
anticipate. -/
theorem C3_ghost_user_full_response :
    _validate_user_exists dbNoUsers "ghost" = false ∧
    get_user_metrics dbNoUsers "ghost" (some MetricType.SPO2)
        (some (1000000 - 86400)) (some 1000000) 0 100 = [] ∧
    _validate_user_exists dbEdge "u1" = true ∧
    get_user_metrics dbEdge "u1" (some MetricType.SPO2)
        (some (1000000 - 86400)) (some 1000000) 0 100 = [] ∧
    (predict_health_status_db dbNoUsers 1000000 reqGhost).prediction_result = 0 ∧
    (predict_health_status_db dbNoUsers 1000000 reqGhost).health_risk_level
        = HealthRiskLevel.LOW ∧
    (predict_health_status_db dbNoUsers 1000000 reqGhost).confidence_score = 0 ∧
    (predict_health_status_db dbNoUsers 1000000 reqGhost).risk_factors = [] ∧
    (predict_health_status_db dbNoUsers 1000000 reqGhost).recommendations
      = ["All health parameters are within normal ranges. Continue monitoring."] := by
  refine ⟨by decide, by decide, by decide, by decide, by decide, by decide, ?_,
    by decide, by decide⟩
  obtain ⟨-, -, hc, -, -, -⟩ := predict_projections 1000000 reqGhost
    (db_lookup dbNoUsers 1000000 "ghost") none none none rfl
  have e : (predict_health_status_db dbNoUsers 1000000 reqGhost).confidence_score
      = (predict_health_status 1000000 reqGhost
          (db_lookup dbNoUsers 1000000 "ghost")).confidence_score := rfl
  rw [e, hc]
  norm_num

end Bracelet